import Mathlib

set_option linter.unusedVariables false
set_option maxRecDepth 8000

/-!
Shallow embedding of the poc-builder repository (a CLI that turns natural-language
requirements into a scaffolded React/Vite project via LLM calls, then runs a
bounded build-and-repair loop).

Each definition is translated from the corresponding Python source file:
  src/llm/claude.py                  ClaudeClient
  src/cli.py                         build-and-repair loop, deterministic and
                                     LLM-assisted fixers, CLI control flow
  src/generator/component_generator.py  ComponentGenerator
  src/generator/scaffold.py          ProjectScaffolder
  src/generator/parser.py            ComponentSpec / ProjectSpec data model

External effects (the Anthropic API, the file system, npm processes, Jinja
template rendering) are modelled as explicit environments passed to the
functions, so every definition is executable.
-/

/-! Character and string helpers shared by the regex-like scanners below.
The apostrophe and backtick characters are built via Char.ofNat. -/

/-- Single-quote character (codepoint 39) as a one-character string. -/
def squote : String := ⟨[Char.ofNat 39]⟩

/-- Decidable equality for Except values, used by the concrete witnesses. -/
instance {ε α : Type} [DecidableEq ε] [DecidableEq α] : DecidableEq (Except ε α) := fun x y =>
  match x, y with
  | .ok a, .ok b =>
    if h : a = b then isTrue (by rw [h]) else isFalse (by intro hc; cases hc; exact h rfl)
  | .error a, .error b =>
    if h : a = b then isTrue (by rw [h]) else isFalse (by intro hc; cases hc; exact h rfl)
  | .ok _, .error _ => isFalse (by intro hc; cases hc)
  | .error _, .ok _ => isFalse (by intro hc; cases hc)

/-- Backtick character (codepoint 96). -/
def backtick : Char := Char.ofNat 96

/-- The three-backtick code-fence marker used by the markdown code blocks. -/
def fenceChars : List Char := [backtick, backtick, backtick]

/-- Python `\s` / `str.isspace` on ASCII: space, tab, newline, carriage return,
vertical tab, form feed. -/
def isSpaceChar (c : Char) : Bool :=
  c = ' ' || c = '\t' || c = '\n' || c = '\r' || c = Char.ofNat 11 || c = Char.ofNat 12

/-- Python `\w` on ASCII: letters, digits, underscore. -/
def isWordChar (c : Char) : Bool :=
  c.isAlpha || c.isDigit || c = '_'

/-- Whether the first list is a literal prefix of the second. -/
def startsWithLit : List Char → List Char → Bool
  | [], _ => true
  | _ :: _, [] => false
  | p :: ps, c :: cs => p = c && startsWithLit ps cs

/-- Python `str.strip()` on a character list: drop whitespace at both ends. -/
def pyStripList (s : List Char) : List Char :=
  ((s.dropWhile isSpaceChar).reverse.dropWhile isSpaceChar).reverse

/-- Python `str.strip()`. -/
def pyStrip (s : String) : String := ⟨pyStripList s.data⟩

/-! Embedding of src/llm/claude.py (ClaudeClient).

The client's mutable token counters (`self.input_tokens`, `self.output_tokens`)
become an explicit `TokenState` threaded through `generate`.  The Anthropic API
is an environment `ClaudeEnv`: `call a` is the outcome of the API request made
on attempt `a` of the retry loop.  `time.sleep` calls are recorded in the
`sleeps` list of the outcome, and the number of API requests issued in `calls`. -/

/-- The token counters owned by the client (initialised to zero in `__init__`). -/
structure TokenState where
  input_tokens : Nat
  output_tokens : Nat
deriving DecidableEq, Repr

/-- The usage record attached to an API response. -/
structure Usage where
  input_tokens : Nat
  output_tokens : Nat
deriving DecidableEq, Repr

/-- A content block of an API response; the code reads `.text` of the first one. -/
structure ContentBlock where
  text : String
deriving DecidableEq, Repr

/-- An API response: a list of content blocks and an optional usage record
(the code guards with `hasattr(response, 'usage')`). -/
structure ApiResponse where
  content : List ContentBlock
  usage : Option Usage
deriving DecidableEq, Repr

/-- The exception classes distinguished by `generate`'s `except` clauses:
`RateLimitError`, `APIConnectionError`, and a generic `APIError`. -/
inductive ApiFailure where
  | rateLimit
  | connection
  | generic (msg : String)
deriving DecidableEq, Repr

/-- The terminal errors `generate` can raise: the two wrapped `APIError`s built
on exhaustion ("Rate limit exceeded after N attempts", "Connection failed after
N attempts"), the re-raised generic `APIError`, and the unreachable
"Failed to generate response after all retries". -/
inductive GenError where
  | rateLimitExceeded (attempts : Nat)
  | connectionFailed (attempts : Nat)
  | apiError (msg : String)
  | allRetriesFailed
deriving DecidableEq, Repr

/-- Environment for `generate`: the outcome of the API request issued on retry
attempt `a` (0-indexed). -/
structure ClaudeEnv where
  call : Nat → Except ApiFailure ApiResponse

/-- The observable outcome of one `generate` invocation: the returned text or
raised error, the final token counters, the list of sleep durations (seconds)
performed, and the number of API requests issued. -/
structure GenOutcome where
  result : Except GenError String
  state : TokenState
  sleeps : List Nat
  calls : Nat
deriving DecidableEq, Repr

/-- The retry loop body of ClaudeClient.generate (claude.py lines 67-116).
`fuel` is the number of loop iterations remaining; the loop is entered with
`fuel = maxRetries` and `attempt = 0`, matching `for attempt in
range(self.max_retries)`.  On a successful call the token counters are
incremented by the reported usage and the first content block's text (or "")
is returned.  RateLimitError and APIConnectionError sleep `2 ** attempt` and
retry while `attempt < max_retries - 1`, then raise a wrapped APIError naming
the class; a generic APIError sleeps 1 second and retries, then is re-raised. -/
def ClaudeClient.generateAux (env : ClaudeEnv) (maxRetries : Nat) :
    Nat → Nat → TokenState → GenOutcome
  | 0, _, st => ⟨.error .allRetriesFailed, st, [], 0⟩
  | fuel + 1, attempt, st =>
    match env.call attempt with
    | .ok resp =>
      let st' := match resp.usage with
        | some u => ⟨st.input_tokens + u.input_tokens, st.output_tokens + u.output_tokens⟩
        | none => st
      let text := match resp.content with
        | [] => ""
        | b :: _ => b.text
      ⟨.ok text, st', [], 1⟩
    | .error .rateLimit =>
      if attempt < maxRetries - 1 then
        let r := ClaudeClient.generateAux env maxRetries fuel (attempt + 1) st
        ⟨r.result, r.state, 2 ^ attempt :: r.sleeps, r.calls + 1⟩
      else ⟨.error (.rateLimitExceeded maxRetries), st, [], 1⟩
    | .error .connection =>
      if attempt < maxRetries - 1 then
        let r := ClaudeClient.generateAux env maxRetries fuel (attempt + 1) st
        ⟨r.result, r.state, 2 ^ attempt :: r.sleeps, r.calls + 1⟩
      else ⟨.error (.connectionFailed maxRetries), st, [], 1⟩
    | .error (.generic m) =>
      if attempt < maxRetries - 1 then
        let r := ClaudeClient.generateAux env maxRetries fuel (attempt + 1) st
        ⟨r.result, r.state, 1 :: r.sleeps, r.calls + 1⟩
      else ⟨.error (.apiError m), st, [], 1⟩

/-- ClaudeClient.generate: run the retry loop from attempt 0. -/
def ClaudeClient.generate (env : ClaudeEnv) (maxRetries : Nat) (st : TokenState) : GenOutcome :=
  ClaudeClient.generateAux env maxRetries maxRetries 0 st

/-- The dictionary returned by ClaudeClient.get_token_usage. -/
structure TokenUsageReport where
  input_tokens : Nat
  output_tokens : Nat
  total_tokens : Nat
deriving DecidableEq, Repr

/-- ClaudeClient.get_token_usage (claude.py lines 156-166). -/
def ClaudeClient.get_token_usage (st : TokenState) : TokenUsageReport :=
  ⟨st.input_tokens, st.output_tokens, st.input_tokens + st.output_tokens⟩

/-- ClaudeClient.reset_token_usage (claude.py lines 168-171). -/
def ClaudeClient.reset_token_usage : TokenState :=
  ⟨0, 0⟩

/-! Embedding of ClaudeClient.generate_structured (claude.py lines 118-154).

Only the selection of the text handed to `json.loads` is modelled: the reply is
searched for the regex pattern three-backticks, optional "json", `\s*`,
a lazily-matched brace-delimited group, `\s*`, three-backticks (with DOTALL);
if it matches, the captured group is parsed, otherwise the whole stripped reply
is parsed. -/

/-- The literal "json" of the optional `(?:json)?` group. -/
def jsonLitChars : List Char := ['j', 's', 'o', 'n']

/-- The lazy group `(\{.*?\})` followed by `\s*` and a closing fence: starting
just after the opening brace, extend the group one character at a time until a
closing brace directly followed by optional whitespace and three backticks is
found.  `acc` holds the group content accumulated so far (opening brace
included). -/
def lazyBraceGroup (acc : List Char) : List Char → Option (List Char)
  | [] => none
  | c :: rest =>
    if c = '}' && startsWithLit fenceChars (rest.dropWhile isSpaceChar) then
      some (acc ++ ['}'])
    else
      lazyBraceGroup (acc ++ [c]) rest

/-- Attempt the fenced-object pattern at the current position: three backticks,
then the literal "json" if present, then greedy whitespace, then an opening
brace starting the lazy group. -/
def tryFenceMatch (s : List Char) : Option (List Char) :=
  if startsWithLit fenceChars s then
    let s1 := s.drop fenceChars.length
    let s2 := if startsWithLit jsonLitChars s1 then s1.drop jsonLitChars.length else s1
    let s3 := s2.dropWhile isSpaceChar
    match s3 with
    | '{' :: rest => lazyBraceGroup ['{'] rest
    | _ => none
  else none

/-- re.search: try the fenced-object pattern at every position, leftmost first. -/
def searchFencedObject : List Char → Option (List Char)
  | [] => none
  | c :: rest =>
    match tryFenceMatch (c :: rest) with
    | some g => some g
    | none => searchFencedObject rest

/-- The string generate_structured hands to `json.loads`: the captured fenced
object if the pattern matched, otherwise the whole response stripped
(claude.py lines 144-149). -/
def ClaudeClient.extract_json_str (response : String) : String :=
  match searchFencedObject response.data with
  | some g => ⟨g⟩
  | none => pyStrip response

/-! Embedding of the build-and-repair loop of the CLI generate command
(cli.py lines 274-309).

The external build tool is an environment: `build k` is the exit code and
combined output of the (k+1)-th `npm run build` invocation of the run (fix
attempts may change the project in between, which is why the result is indexed
by the invocation count).  The loop records which attempt indices called
`_attempt_build_fix`. -/

/-- Environment for the build loop: exit code and captured output of each
build invocation, and the result of `_attempt_build_fix` at each attempt. -/
structure BuildEnv where
  build : Nat → Int × String
  fixApplied : Nat → Bool

/-- Observable outcome of the build loop: the `build_success` flag, the number
of build invocations made, and the attempt indices at which a repair
(`_attempt_build_fix`) was attempted. -/
structure LoopOut where
  success : Bool
  builds : Nat
  fixAttempts : List Nat
deriving DecidableEq, Repr

/-- Body of `for attempt in range(max_attempts)` (cli.py lines 278-296):
run the build; exit code 0 sets success and breaks; otherwise, while
`attempt < max_attempts - 1`, attempt a fix and retry.  `fuel` counts the
remaining loop iterations; the loop starts with `fuel = maxAttempts`,
`attempt = 0` and `builds = 0`. -/
def buildLoopAux (env : BuildEnv) (maxAttempts : Nat) :
    Nat → Nat → Nat → LoopOut
  | 0, _, builds => ⟨false, builds, []⟩
  | fuel + 1, attempt, builds =>
    let r := env.build builds
    if r.1 = 0 then ⟨true, builds + 1, []⟩
    else
      if attempt < maxAttempts - 1 then
        let rest := buildLoopAux env maxAttempts fuel (attempt + 1) (builds + 1)
        ⟨rest.success, rest.builds, attempt :: rest.fixAttempts⟩
      else
        let rest := buildLoopAux env maxAttempts fuel (attempt + 1) (builds + 1)
        ⟨rest.success, rest.builds, rest.fixAttempts⟩

/-- The build-and-repair loop with the source's fixed `max_attempts = 3`
(cli.py line 276). -/
def build_loop (env : BuildEnv) : LoopOut :=
  buildLoopAux env 3 3 0 0

/-! Embedding of `_attempt_simple_typescript_fix` (cli.py lines 69-109) and
`_attempt_build_fix` (cli.py lines 112-174).

The project directory is an association list from relative file path
(as a character list) to file content.  The two regexes of the deterministic
fixer and the word-boundary substitution of `re.sub(rf"\b{var}\b", ...)` are
implemented as explicit scanners. -/

/-- Project files: relative path -> content, both as character lists. -/
def FsT : Type := List (List Char × List Char)

/-- Association-list lookup of a file by path (Path.exists / read_text). -/
def lookupFs : FsT → List Char → Option (List Char)
  | [], _ => none
  | (p, c) :: rest, q => if p = q then some c else lookupFs rest q

/-- Overwrite the content of the first binding of a path (write_text). -/
def updateFs : FsT → List Char → List Char → FsT
  | [], _, _ => []
  | (p, c) :: rest, q, newC =>
    if p = q then (p, newC) :: rest else (p, c) :: updateFs rest q newC

/-- Literal before the captured identifier in the unused-variable pattern
`TS6133: '(\w+)' is declared but its value is never read`. -/
def ts6133Pre : List Char := ("TS6133: " ++ squote).data

/-- Literal after the captured identifier in the unused-variable pattern. -/
def ts6133Post : List Char := (squote ++ " is declared but its value is never read").data

/-- Split a maximal run of `\w` characters off the front of a list. -/
def takeWordRun : List Char → List Char × List Char
  | [] => ([], [])
  | c :: rest =>
    if isWordChar c then
      let r := takeWordRun rest
      (c :: r.1, r.2)
    else ([], c :: rest)

/-- Split a maximal run of digits off the front of a list. -/
def takeDigitRun : List Char → List Char × List Char
  | [] => ([], [])
  | c :: rest =>
    if c.isDigit then
      let r := takeDigitRun rest
      (c :: r.1, r.2)
    else ([], c :: rest)

/-- Try the unused-variable pattern at the current position; on success return
the captured identifier and the remainder of the input after the match. -/
def tryTs6133At (s : List Char) : Option (List Char × List Char) :=
  if startsWithLit ts6133Pre s then
    let s1 := s.drop ts6133Pre.length
    let w := takeWordRun s1
    if w.1 = [] then none
    else if startsWithLit ts6133Post w.2 then
      some (w.1, w.2.drop ts6133Post.length)
    else none
  else none

/-- re.finditer for the unused-variable pattern: scan left to right, continuing
after each non-overlapping match; `fuel` bounds the scan by the input length. -/
def ts6133Go : Nat → List Char → List (List Char)
  | 0, _ => []
  | _, [] => []
  | fuel + 1, c :: rest =>
    match tryTs6133At (c :: rest) with
    | some (w, rem) => w :: ts6133Go fuel rem
    | none => ts6133Go fuel rest

/-- All identifiers captured by the unused-variable pattern in the build
output (cli.py line 85). -/
def ts6133Matches (s : String) : List (List Char) :=
  ts6133Go s.data.length s.data

/-- Literal prefix of the file/line pattern
`src/components/(\w+\.tsx):(\d+):(\d+)`. -/
def fileRefPre : List Char := "src/components/".data

/-- The literal ".tsx" inside the file capture group. -/
def tsxSuffix : List Char := ['.', 't', 's', 'x']

/-- Try the file/line pattern at the current position; on success return the
captured file name (with its ".tsx") and the remainder after the match. -/
def tryFileRefAt (s : List Char) : Option (List Char × List Char) :=
  if startsWithLit fileRefPre s then
    let s1 := s.drop fileRefPre.length
    let w := takeWordRun s1
    if w.1 = [] then none
    else if startsWithLit tsxSuffix w.2 then
      let s2 := w.2.drop tsxSuffix.length
      match s2 with
      | ':' :: s3 =>
        let d1 := takeDigitRun s3
        if d1.1 = [] then none
        else match d1.2 with
          | ':' :: s4 =>
            let d2 := takeDigitRun s4
            if d2.1 = [] then none else some (w.1 ++ tsxSuffix, d2.2)
          | _ => none
      | _ => none
    else none
  else none

/-- re.finditer for the file/line pattern. -/
def fileRefGo : Nat → List Char → List (List Char)
  | 0, _ => []
  | _, [] => []
  | fuel + 1, c :: rest =>
    match tryFileRefAt (c :: rest) with
    | some (w, rem) => w :: fileRefGo fuel rem
    | none => fileRefGo fuel rest

/-- All file names captured by the file/line pattern in the build output
(cli.py line 86). -/
def fileRefMatches (s : String) : List (List Char) :=
  fileRefGo s.data.length s.data

/-- A `\b` boundary to the left of a word character: start of string or a
non-word previous character. -/
def boundaryBefore : Option Char → Bool
  | none => true
  | some p => !isWordChar p

/-- A `\b` boundary to the right of a word character: end of string or a
non-word next character. -/
def boundaryAfter : List Char → Bool
  | [] => true
  | c :: _ => !isWordChar c

/-- One step of `re.sub(rf"\b{var}\b", "_" + var, content, count=1)`: find the
leftmost whole-word occurrence of `var` and prefix it with an underscore.
`prev` is the character just before the current position.  Returns `none` when
no occurrence exists (in which case re.sub leaves the content unchanged). -/
def subWordFirstGo (var : List Char) : Option Char → List Char → Option (List Char)
  | _, [] => none
  | prev, c :: rest =>
    if boundaryBefore prev && startsWithLit var (c :: rest) &&
        boundaryAfter ((c :: rest).drop var.length) then
      some ('_' :: (var ++ (c :: rest).drop var.length))
    else
      match subWordFirstGo var (some c) rest with
      | some out => some (c :: out)
      | none => none

/-- `re.sub(rf"\b{var}\b", "_" + var, content, count=1)` as an optional
rewrite. -/
def subWordFirst (var content : List Char) : Option (List Char) :=
  subWordFirstGo var none content

/-- Decidable existence of a whole-word occurrence of `var`; used to state
when the deterministic fixer applies. -/
def hasWordOccurGo (var : List Char) : Option Char → List Char → Bool
  | _, [] => false
  | prev, c :: rest =>
    (boundaryBefore prev && startsWithLit var (c :: rest) &&
      boundaryAfter ((c :: rest).drop var.length)) ||
    hasWordOccurGo var (some c) rest

/-- Whether `content` contains a whole-word occurrence of `var`. -/
def hasWordOccur (var content : List Char) : Bool :=
  hasWordOccurGo var none content

/-- The path `project_dir / "src" / "components" / file_name` relative to the
project directory. -/
def compPath (fileName : List Char) : List Char :=
  "src/components/".data ++ fileName

/-- The loop over `zip(matches, file_matches)` (cli.py lines 89-107): for each
pair, if the file exists, substitute the first whole-word occurrence of the
variable; if that changed the content, write it back and report success. -/
def simpleFixPairs (fs : FsT) : List (List Char × List Char) → Bool × FsT
  | [] => (false, fs)
  | (v, f) :: rest =>
    match lookupFs fs (compPath f) with
    | none => simpleFixPairs fs rest
    | some content =>
      let updated := match subWordFirst v content with
        | some u => u
        | none => content
      if updated ≠ content then (true, updateFs fs (compPath f) updated)
      else simpleFixPairs fs rest

/-- `_attempt_simple_typescript_fix` (cli.py lines 69-109): collect the two
match lists and, when both are non-empty, walk their zip. -/
def attempt_simple_typescript_fix (fs : FsT) (error_output : String) : Bool × FsT :=
  let ms := ts6133Matches error_output
  let fms := fileRefMatches error_output
  if ms ≠ [] ∧ fms ≠ [] then simpleFixPairs fs (ms.zip fms)
  else (false, fs)

/-- Outcome of the LLM repair call made by `_attempt_build_fix`:
`fixes l` models `generate_structured` returning a parsed JSON array of
`file`/`fixed_code` entries, `notAList` a parsed reply that is not a non-empty
list, and `exn` an exception raised inside the `try` block (API failure or
unparseable reply), which the code logs and swallows. -/
inductive LlmFixReply where
  | fixes (l : List (List Char × List Char))
  | notAList
  | exn
deriving DecidableEq

/-- Apply the LLM-proposed fixes: overwrite each named file that exists
(cli.py lines 163-168). -/
def applyLlmFixes : FsT → List (List Char × List Char) → FsT
  | fs, [] => fs
  | fs, (f, code) :: rest =>
    match lookupFs fs f with
    | some _ => applyLlmFixes (updateFs fs f code) rest
    | none => applyLlmFixes fs rest

/-- Result of `_attempt_build_fix`: whether a fix was attempted, the resulting
project files, and whether the LLM fixer was invoked. -/
structure FixOutcome where
  applied : Bool
  fs : FsT
  llmInvoked : Bool

/-- `_attempt_build_fix` (cli.py lines 112-174): first try the deterministic
TypeScript fix; only if it does not apply, issue the LLM repair call and
apply any returned fixes. -/
def attempt_build_fix (llm : LlmFixReply) (fs : FsT) (error_output : String) : FixOutcome :=
  let det := attempt_simple_typescript_fix fs error_output
  if det.1 then ⟨true, det.2, false⟩
  else
    match llm with
    | .fixes l => if l ≠ [] then ⟨true, applyLlmFixes fs l, true⟩ else ⟨false, fs, true⟩
    | .notAList => ⟨false, fs, true⟩
    | .exn => ⟨false, fs, true⟩

/-! Embedding of the data model of src/generator/parser.py. -/

/-- ComponentSpec (parser.py lines 8-22): specification of one React
component as produced by the requirements parser. -/
structure ComponentSpec where
  name : String
  description : String
  props : List (String × String)
  state : List (String × String)
  interactions : List String
  children : List String
deriving DecidableEq, Repr

/-- ProjectSpec (parser.py lines 25-30): the complete project specification. -/
structure ProjectSpec where
  description : String
  components : List ComponentSpec
  main_component : String
deriving DecidableEq, Repr

/-! Embedding of src/generator/component_generator.py (ComponentGenerator).

The LLM is an environment mapping a component specification to the raw reply
text of the per-component generation call.  The fenced-code-block extraction
implements the regexes of lines 218-219:
an opening fence with language tag and newline, a lazily matched body, and a
newline followed by a closing fence. -/

/-- Environment for the component generator: the raw LLM reply for each
component specification. -/
structure CompGenEnv where
  response : ComponentSpec → String

/-- The body of a fenced block: characters before the first occurrence of a
newline followed by three backticks, or `none` when no such close exists. -/
def splitAtFenceClose : List Char → Option (List Char)
  | [] => none
  | c :: rest =>
    if c = '\n' && startsWithLit fenceChars rest then some []
    else
      match splitAtFenceClose rest with
      | some content => some (c :: content)
      | none => none

/-- Leftmost match of an opening fence literal, then the lazily matched body up
to the first closing fence.  When an opening fence has no closing fence after
it, no later opening can have one either, so the whole search fails. -/
def extractFencedGo (openLit : List Char) : List Char → Option (List Char)
  | [] => none
  | c :: rest =>
    if startsWithLit openLit (c :: rest) then
      splitAtFenceClose ((c :: rest).drop openLit.length)
    else extractFencedGo openLit rest

/-- The regex of component_generator.py lines 218-219: three backticks, the
language tag, a newline, the lazy body, then a newline and three backticks. -/
def extractFenced (lang : String) (s : String) : Option String :=
  (extractFencedGo (fenceChars ++ lang.data ++ ['\n']) s.data).map (fun l => ⟨l⟩)

/-- ComponentGenerator.generate_component (component_generator.py lines
23-227), from the reply text onward: extract the tsx and css blocks; a missing
tsx block raises `ValueError(f"Failed to extract TSX code from response for
{spec.name}")`; a missing css block falls back to the placeholder
`f"/* Styles for {spec.name} */"`. -/
def generate_component (env : CompGenEnv) (spec : ComponentSpec) :
    Except String (String × String) :=
  let response := env.response spec
  match extractFenced "tsx" response with
  | none => .error ("Failed to extract TSX code from response for " ++ spec.name)
  | some tsx =>
    let css := match extractFenced "css" response with
      | some c => pyStrip c
      | none => "/* Styles for " ++ spec.name ++ " */"
    .ok (pyStrip tsx, css)

/-- The App.tsx wiring file synthesized by `_update_app_component`
(component_generator.py lines 256-283), as a function of the designated main
component name. -/
def app_code (m : String) : String :=
  "import " ++ squote ++ "./App.css" ++ squote ++ "\n" ++
  "import Header from " ++ squote ++ "./components/Header" ++ squote ++ "\n" ++
  "import " ++ m ++ " from " ++ squote ++ "./components/" ++ m ++ squote ++ "\n\n" ++
  "function App() \x7b\n  return (\n    <div className=\"app\">\n      <Header />\n" ++
  "      <main className=\"main-content\">\n        " ++ "<" ++ m ++ " />" ++
  "\n      </main>\n    </div>\n  )\n\x7d\n\nexport default App\n"

/-- The writes performed by the per-component loop of generate_project
(component_generator.py lines 241-251): for each component in specification
order, one `src/components/Name.tsx` and one `src/components/Name.css` write;
a generation failure propagates. -/
def componentWrites (env : CompGenEnv) : List ComponentSpec → Except String (List (String × String))
  | [] => .ok []
  | c :: rest =>
    match generate_component env c with
    | .error e => .error e
    | .ok pair =>
      match componentWrites env rest with
      | .error e => .error e
      | .ok ws =>
        .ok (("src/components/" ++ c.name ++ ".tsx", pair.1) ::
             ("src/components/" ++ c.name ++ ".css", pair.2) :: ws)

/-- ComponentGenerator.generate_project (component_generator.py lines
229-254): write every component pair, then the root wiring file `src/App.tsx`.
The result is the ordered list of (path, content) writes into the output
directory. -/
def generate_project (env : CompGenEnv) (spec : ProjectSpec) :
    Except String (List (String × String)) :=
  match componentWrites env spec.components with
  | .error e => .error e
  | .ok ws => .ok (ws ++ [("src/App.tsx", app_code spec.main_component)])

/-- The expected write paths of the per-component loop, in specification
order. -/
def componentPathList : List ComponentSpec → List String
  | [] => []
  | c :: rest =>
    ("src/components/" ++ c.name ++ ".tsx") ::
    ("src/components/" ++ c.name ++ ".css") :: componentPathList rest

/-! Embedding of src/generator/scaffold.py (ProjectScaffolder.create_project).

The file system is a pair of directory and file listings; Jinja template
rendering (the templates live outside the repository's Python sources) is an
environment `render` mapping a template path to its rendered content with both
the project name and the design-system token context already applied, and
`staticFile` gives the content of each static file of the template directory
(shutil.copy2 is skipped when the source is missing). -/

/-- File-system state seen by the scaffolder. -/
structure FsState where
  dirs : List String
  files : List (String × String)
deriving DecidableEq, Repr

/-- Path.exists: the path is a known directory or file. -/
def pathExists (fs : FsState) (p : String) : Bool :=
  fs.dirs.contains p || (fs.files.map Prod.fst).contains p

/-- Environment for the scaffolder: template rendering and static files. -/
structure ScaffoldEnv where
  render : String → String
  staticFile : String → Option String

/-- The error raised by create_project on an occupied output path:
`FileExistsError(f"Output directory already exists: {output_dir}")`. -/
inductive ScaffoldError where
  | fileExists (dir : String)
deriving DecidableEq, Repr

/-- The fixed .gitignore listing written by create_project
(scaffold.py lines 98-114). -/
def gitignoreContent : String :=
  "node_modules\ndist\ndist-ssr\n*.local\n\n# Editor directories and files\n.vscode/*\n!.vscode/extensions.json\n.idea\n.DS_Store\n*.suo\n*.ntvs*\n*.njsproj\n*.sln\n*.sw?\n"

/-- The copy of one static template file (scaffold.py lines 130-139): copied
only when the source exists under the template directory. -/
def copyStatic (env : ScaffoldEnv) (out : String) (src : String) : List (String × String) :=
  match env.staticFile src with
  | some c => [(out ++ "/" ++ src, c)]
  | none => []

/-- ProjectScaffolder.create_project (scaffold.py lines 33-114): fail with
FileExistsError when the output path already exists, otherwise create the
directory tree, render every template file, copy the static files and write
the .gitignore.  Returns the resulting file system and the raised error, if
any; on error the file system is returned unchanged. -/
def create_project (env : ScaffoldEnv) (fs : FsState) (output_dir : String)
    (project_name : String) : FsState × Option ScaffoldError :=
  if pathExists fs output_dir then
    (fs, some (.fileExists output_dir))
  else
    ( { dirs := fs.dirs ++ [output_dir, output_dir ++ "/src",
          output_dir ++ "/src/components", output_dir ++ "/public"],
        files := fs.files ++
          [ (output_dir ++ "/package.json", env.render "package.json.j2"),
            (output_dir ++ "/index.html", env.render "index.html"),
            (output_dir ++ "/src/main.tsx", env.render "src/main.tsx.j2"),
            (output_dir ++ "/src/index.css", env.render "src/index.css.j2"),
            (output_dir ++ "/src/App.css", env.render "src/App.css.j2"),
            (output_dir ++ "/src/components/Header.tsx", env.render "src/components/Header.tsx.j2"),
            (output_dir ++ "/src/components/Header.css", env.render "src/components/Header.css.j2") ] ++
          copyStatic env output_dir "vite.config.ts" ++
          copyStatic env output_dir "tsconfig.json" ++
          copyStatic env output_dir "tsconfig.node.json" ++
          copyStatic env output_dir "public/thales-logo.svg" ++
          [ (output_dir ++ "/.gitignore", gitignoreContent) ] },
      none )

/-! Embedding of the control flow of the CLI generate command (cli.py lines
203-350) at the granularity of its side-effecting stages.

Events record, in order: the requirements-parse LLM call, the scaffold writes,
the per-component generation (with its LLM calls and writes), npm install and
npm build.  `click.Abort` (a non-zero process exit) is the `aborted` outcome.
The environment fixes the outcome of each stage. -/

/-- The side-effecting stages of one CLI run. -/
inductive CliEvent where
  | llmParse
  | scaffoldWrites
  | generateComponents
  | npmInstall
  | npmBuild
deriving DecidableEq, Repr

/-- Process outcome of the CLI run. -/
inductive CliOutcome where
  | completed
  | aborted
deriving DecidableEq, Repr

/-- Environment for one CLI run: the credential sources, whether the output
path is already occupied, and the outcome of each pipeline stage. -/
structure CliEnv where
  api_key : Option String
  env_api_key : Option String
  output_exists : Bool
  parse_ok : Bool
  gen_ok : Bool
  install_ok : Bool
  build_success : Bool

/-- The generate command (cli.py lines 203-350): validate the credential,
parse the requirements (one structured LLM call), scaffold the project
(FileExistsError aborts before any write), generate the components, run npm
install, then the build loop.  Returns the ordered list of stages that ran
and the process outcome. -/
def cli_generate (env : CliEnv) : List CliEvent × CliOutcome :=
  if env.api_key.isNone && env.env_api_key.isNone then ([], .aborted)
  else if env.parse_ok = false then ([.llmParse], .aborted)
  else if env.output_exists then ([.llmParse], .aborted)
  else if env.gen_ok = false then
    ([.llmParse, .scaffoldWrites, .generateComponents], .aborted)
  else if env.install_ok = false then
    ([.llmParse, .scaffoldWrites, .generateComponents, .npmInstall], .aborted)
  else if env.build_success then
    ([.llmParse, .scaffoldWrites, .generateComponents, .npmInstall, .npmBuild], .completed)
  else
    ([.llmParse, .scaffoldWrites, .generateComponents, .npmInstall, .npmBuild], .aborted)

/-! Helper lemmas. -/

/-- Token counters never decrease across the retry loop: failed attempts leave
the state unchanged and a successful call only adds the reported usage. -/
theorem generateAux_tokens_mono (env : ClaudeEnv) (maxRetries : Nat) :
    ∀ fuel attempt st,
      st.input_tokens ≤ (ClaudeClient.generateAux env maxRetries fuel attempt st).state.input_tokens ∧
      st.output_tokens ≤ (ClaudeClient.generateAux env maxRetries fuel attempt st).state.output_tokens := by
  intro fuel
  induction fuel with
  | zero =>
    intro attempt st
    simp [ClaudeClient.generateAux]
  | succ n ih =>
    intro attempt st
    simp only [ClaudeClient.generateAux]
    cases h : env.call attempt with
    | ok resp =>
      cases hu : resp.usage with
      | none => simp [hu]
      | some u => simp [hu]
    | error f =>
      cases f with
      | rateLimit =>
        by_cases hlt : attempt < maxRetries - 1 <;> simp [hlt, ih (attempt + 1) st]
      | connection =>
        by_cases hlt : attempt < maxRetries - 1 <;> simp [hlt, ih (attempt + 1) st]
      | generic m =>
        by_cases hlt : attempt < maxRetries - 1 <;> simp [hlt, ih (attempt + 1) st]

/-- A list is a literal prefix of itself followed by anything. -/
theorem startsWithLit_self_append (l x : List Char) : startsWithLit l (l ++ x) = true := by
  induction l with
  | nil => rfl
  | cons c t ih => simp [startsWithLit, ih]

/-- A literal prefix decomposes the scanned list. -/
theorem startsWithLit_decomp (p : List Char) :
    ∀ s, startsWithLit p s = true → s = p ++ s.drop p.length := by
  induction p with
  | nil => intro s _; simp
  | cons c t ih =>
    intro s h
    cases s with
    | nil => simp [startsWithLit] at h
    | cons a rest =>
      simp only [startsWithLit, Bool.and_eq_true, decide_eq_true_eq] at h
      obtain ⟨rfl, h2⟩ := h
      simpa using ih rest h2

/-- The bounds of the build-and-repair loop: the number of builds is limited
by the remaining fuel and every repair happens at an attempt index strictly
below `maxAttempts - 1`. -/
theorem buildLoopAux_bounds (env : BuildEnv) (maxA : Nat) :
    ∀ fuel attempt builds,
      (buildLoopAux env maxA fuel attempt builds).builds ≤ builds + fuel ∧
      ∀ i ∈ (buildLoopAux env maxA fuel attempt builds).fixAttempts, i < maxA - 1 := by
  intro fuel
  induction fuel with
  | zero =>
    intro attempt builds
    simp [buildLoopAux]
  | succ n ih =>
    intro attempt builds
    simp only [buildLoopAux]
    by_cases h0 : (env.build builds).1 = 0
    · simp [h0]
    · by_cases hlt : attempt < maxA - 1
      · simp only [h0, if_false, hlt, if_true]
        refine ⟨?_, ?_⟩
        · have := (ih (attempt + 1) (builds + 1)).1
          omega
        · intro i hi
          rcases List.mem_cons.mp hi with hi | hi
          · omega
          · exact (ih (attempt + 1) (builds + 1)).2 i hi
      · simp only [h0, if_false, hlt, if_false]
        refine ⟨?_, ?_⟩
        · have := (ih (attempt + 1) (builds + 1)).1
          omega
        · exact (ih (attempt + 1) (builds + 1)).2

/-- The newline character is whitespace. -/
theorem isSpaceChar_newline : isSpaceChar '\n' = true := by decide

/-- The backtick character is not whitespace. -/
theorem isSpaceChar_backtick : isSpaceChar backtick = false := by decide


/-- Whitespace skipping stops at the fence after the closing newline. -/
theorem dropWhile_newline_fence (q : List Char) :
    List.dropWhile isSpaceChar ('\n' :: (fenceChars ++ q)) = fenceChars ++ q := by
  rw [List.dropWhile_cons, if_pos isSpaceChar_newline]
  show List.dropWhile isSpaceChar (backtick :: (backtick :: backtick :: q)) = fenceChars ++ q
  rw [List.dropWhile_cons, if_neg (by simp [isSpaceChar_backtick])]
  rfl

/-- The lazy group scan runs through a close-brace-free body and stops at the
first closing brace when it is directly followed by a newline and a fence. -/
theorem lazyBraceGroup_through (q : List Char) :
    ∀ inner acc, '}' ∉ inner →
      lazyBraceGroup acc (inner ++ '}' :: '\n' :: (fenceChars ++ q)) =
        some (acc ++ (inner ++ ['}'])) := by
  intro inner
  induction inner with
  | nil =>
    intro acc h
    show lazyBraceGroup acc ('}' :: '\n' :: (fenceChars ++ q)) = some (acc ++ ['}'])
    rw [lazyBraceGroup]
    rw [if_pos (by rw [dropWhile_newline_fence, startsWithLit_self_append]; simp)]
  | cons c t ih =>
    intro acc h
    have hc : c ≠ '}' := fun he => h (by simp [he])
    have h2 := ih (acc ++ [c]) (fun hm => h (List.mem_cons_of_mem c hm))
    rw [List.append_assoc] at h2
    show lazyBraceGroup acc (c :: (t ++ '}' :: '\n' :: (fenceChars ++ q))) =
      some (acc ++ (c :: (t ++ ['}'])))
    rw [lazyBraceGroup]
    rw [if_neg (by simp [hc])]
    exact h2

/-- No fenced-object match can start at a non-backtick character. -/
theorem tryFenceMatch_cons_ne (c : Char) (rest : List Char) (hc : c ≠ backtick) :
    tryFenceMatch (c :: rest) = none := by
  unfold tryFenceMatch
  rw [if_neg]
  simp [fenceChars, startsWithLit, Ne.symm hc]

/-- The fenced-object search skips any backtick-free prefix. -/
theorem searchFencedObject_skip (rest : List Char) :
    ∀ p, (∀ c ∈ p, c ≠ backtick) →
      searchFencedObject (p ++ rest) = searchFencedObject rest := by
  intro p
  induction p with
  | nil => intro _; rfl
  | cons c t ih =>
    intro h
    show searchFencedObject (c :: (t ++ rest)) = searchFencedObject rest
    rw [searchFencedObject]
    rw [tryFenceMatch_cons_ne c (t ++ rest) (h c (by simp))]
    exact ih (fun d hd => h d (by simp [hd]))

/-- On a backtick-free input the fenced-object search fails. -/
theorem searchFencedObject_none (l : List Char) (h : ∀ c ∈ l, c ≠ backtick) :
    searchFencedObject l = none := by
  have h0 := searchFencedObject_skip [] l h
  simpa using h0

/-- At a well-formed fenced JSON object the pattern matches and captures
exactly the brace-delimited object. -/
theorem tryFenceMatch_at_open (inner q : List Char) (hi : '}' ∉ inner) :
    tryFenceMatch (fenceChars ++ (jsonLitChars ++ ('\n' :: '{' :: (inner ++ '}' :: '\n' :: (fenceChars ++ q)))))
      = some ('{' :: (inner ++ ['}'])) := by
  have hdw : List.dropWhile isSpaceChar ('\n' :: '{' :: (inner ++ '}' :: '\n' :: (fenceChars ++ q)))
      = '{' :: (inner ++ '}' :: '\n' :: (fenceChars ++ q)) := by
    rw [List.dropWhile_cons, if_pos isSpaceChar_newline, List.dropWhile_cons,
      if_neg (by simp [show isSpaceChar '{' = false by decide])]
  unfold tryFenceMatch
  rw [if_pos (startsWithLit_self_append _ _)]
  simp only [List.drop_left, startsWithLit_self_append, if_true, hdw]
  exact lazyBraceGroup_through q inner ['{'] hi

/-- Whenever a whole-word occurrence of `var` exists, the single-substitution
scan succeeds and rewrites exactly the leftmost such occurrence, prefixing it
with an underscore and leaving everything else unchanged. -/
theorem subWordFirstGo_shape (var : List Char) :
    ∀ s prev, hasWordOccurGo var prev s = true →
      ∃ pre post, s = pre ++ var ++ post ∧
        subWordFirstGo var prev s = some (pre ++ ('_' :: var) ++ post) := by
  intro s
  induction s with
  | nil =>
    intro prev h
    simp [hasWordOccurGo] at h
  | cons c rest ih =>
    intro prev h
    by_cases hg : (boundaryBefore prev && startsWithLit var (c :: rest) &&
        boundaryAfter ((c :: rest).drop var.length)) = true
    · have hsw : startsWithLit var (c :: rest) = true := by
        have h1 := (Bool.and_eq_true _ _).mp hg
        exact (Bool.and_eq_true _ _).mp h1.1 |>.2
      have hdecomp := startsWithLit_decomp var (c :: rest) hsw
      refine ⟨[], (c :: rest).drop var.length, by simpa using hdecomp, ?_⟩
      rw [subWordFirstGo]
      rw [if_pos hg]
      simp
    · have h' : hasWordOccurGo var (some c) rest = true := by
        rw [hasWordOccurGo] at h
        rcases (Bool.or_eq_true _ _).mp h with h1 | h1
        · exact absurd h1 hg
        · exact h1
      obtain ⟨pre, post, hs, hsub⟩ := ih (some c) h'
      refine ⟨c :: pre, post, by simp [hs], ?_⟩
      rw [subWordFirstGo]
      rw [if_neg hg]
      rw [hsub]
      simp

/-- The per-component loop succeeds when every component generates, producing
exactly one tsx and one css write per component, in specification order. -/
theorem componentWrites_ok (env : CompGenEnv) :
    ∀ l : List ComponentSpec,
      (∀ c ∈ l, ∃ pr, generate_component env c = .ok pr) →
      ∃ ws, componentWrites env l = .ok ws ∧
        ws.map Prod.fst = componentPathList l ∧
        ws.length = 2 * l.length := by
  intro l
  induction l with
  | nil =>
    intro _
    exact ⟨[], rfl, rfl, rfl⟩
  | cons c t ih =>
    intro h
    obtain ⟨pr, hpr⟩ := h c (by simp)
    obtain ⟨ws, hws, hmap, hlen⟩ := ih (fun d hd => h d (by simp [hd]))
    refine ⟨("src/components/" ++ c.name ++ ".tsx", pr.1) ::
            ("src/components/" ++ c.name ++ ".css", pr.2) :: ws, ?_, ?_, ?_⟩
    · rw [componentWrites, hpr, hws]
    · simp [componentPathList, hmap]
    · simp [hlen]
      omega

/-! Claim theorems. -/

/-- C1: In the build-and-repair loop, the build command is invoked at most
max_attempts (3) times per run, and after the final allowed build attempt
fails no fix (deterministic or LLM-assisted) is ever attempted: every call to
the fixer happens at an attempt index i with i + 1 < 3, i.e. strictly before
the final allowed attempt. -/
theorem c1_build_loop_bounded (env : BuildEnv) :
    (build_loop env).builds ≤ 3 ∧
    ∀ i ∈ (build_loop env).fixAttempts, i + 1 < 3 := by
  have h := buildLoopAux_bounds env 3 3 0 0
  refine ⟨by simpa [build_loop] using h.1, ?_⟩
  intro i hi
  have := h.2 i hi
  omega

/-- Build environment for the C1 witness: every build fails. -/
def c1Env : BuildEnv :=
  ⟨fun _ => (1, "error TS2304"), fun _ => false⟩

/-- Witness for C1: the bounds evaluated on a run where every build fails. -/
theorem c1_build_loop_bounded_witness :
    (build_loop c1Env).builds ≤ 3 ∧
    ∀ i ∈ (build_loop c1Env).fixAttempts, i + 1 < 3 :=
  c1_build_loop_bounded c1Env

/-- C9: get_token_usage always reports total_tokens equal to
input_tokens plus output_tokens; the counters are natural numbers (never
negative), are never decreased by a generate call, and reset_token_usage is
the only operation that returns them to zero. -/
theorem c9_token_accounting (st : TokenState) (env : ClaudeEnv) (maxRetries : Nat) :
    (ClaudeClient.get_token_usage st).total_tokens =
      (ClaudeClient.get_token_usage st).input_tokens +
        (ClaudeClient.get_token_usage st).output_tokens ∧
    st.input_tokens ≤ (ClaudeClient.generate env maxRetries st).state.input_tokens ∧
    st.output_tokens ≤ (ClaudeClient.generate env maxRetries st).state.output_tokens ∧
    ClaudeClient.get_token_usage ClaudeClient.reset_token_usage = ⟨0, 0, 0⟩ :=
  ⟨rfl,
   (generateAux_tokens_mono env maxRetries maxRetries 0 st).1,
   (generateAux_tokens_mono env maxRetries maxRetries 0 st).2,
   rfl⟩

/-- Claude environment for the C9 witness: a successful call reporting usage. -/
def c9Env : ClaudeEnv :=
  ⟨fun _ => .ok ⟨[⟨"hello"⟩], some ⟨11, 7⟩⟩⟩

/-- Witness for C9: the accounting invariant evaluated at concrete counters. -/
theorem c9_token_accounting_witness :
    (ClaudeClient.get_token_usage ⟨5, 9⟩).total_tokens =
      (ClaudeClient.get_token_usage ⟨5, 9⟩).input_tokens +
        (ClaudeClient.get_token_usage ⟨5, 9⟩).output_tokens ∧
    (5 : Nat) ≤ (ClaudeClient.generate c9Env 3 ⟨5, 9⟩).state.input_tokens ∧
    (9 : Nat) ≤ (ClaudeClient.generate c9Env 3 ⟨5, 9⟩).state.output_tokens ∧
    ClaudeClient.get_token_usage ClaudeClient.reset_token_usage = ⟨0, 0, 0⟩ :=
  c9_token_accounting ⟨5, 9⟩ c9Env 3

/-- C10: when the first API call succeeds, an empty content block list makes
generate return the empty string rather than raising or indexing out of
bounds, and the first block's text is returned exactly when at least one
block is present. -/
theorem c10_empty_content (env : ClaudeEnv) (st : TokenState) (resp : ApiResponse)
    (b : ContentBlock) (bs : List ContentBlock)
    (h0 : env.call 0 = .ok resp) :
    (resp.content = [] → (ClaudeClient.generate env 3 st).result = .ok "") ∧
    (resp.content = b :: bs → (ClaudeClient.generate env 3 st).result = .ok b.text) := by
  constructor <;> intro hc <;>
    simp [ClaudeClient.generate, ClaudeClient.generateAux, h0, hc]

/-- Claude environment for the C10 witness: a successful call with an empty
content block list. -/
def c10Env : ClaudeEnv :=
  ⟨fun _ => .ok ⟨[], some ⟨1, 2⟩⟩⟩

/-- Witness for C10: generate returns the empty string on an empty content
list. -/
theorem c10_empty_content_witness :
    (([] : List ContentBlock) = [] →
      (ClaudeClient.generate c10Env 3 ⟨0, 0⟩).result = .ok "") ∧
    (([] : List ContentBlock) = ⟨"x"⟩ :: [] →
      (ClaudeClient.generate c10Env 3 ⟨0, 0⟩).result = .ok (ContentBlock.mk "x").text) :=
  c10_empty_content c10Env ⟨0, 0⟩ ⟨[], some ⟨1, 2⟩⟩ ⟨"x"⟩ [] rfl

/-- Claude environment refuting C3: the first call raises a generic APIError,
the second succeeds. -/
def c3Env : ClaudeEnv :=
  ⟨fun a => if a = 0 then .error (.generic "boom") else .ok ⟨[⟨"hi"⟩], some ⟨3, 4⟩⟩⟩

/-- Counterexample to C3 as stated: a generic (non-rate-limit,
non-connection) APIError on the first attempt does NOT propagate immediately;
generate sleeps 1 second, issues a second API call, and returns its text. -/
theorem c3_counterexample :
    (ClaudeClient.generate c3Env 3 ⟨0, 0⟩).result = .ok "hi" ∧
    (ClaudeClient.generate c3Env 3 ⟨0, 0⟩).calls = 2 ∧
    (ClaudeClient.generate c3Env 3 ⟨0, 0⟩).sleeps = [1] := by
  refine ⟨rfl, rfl, rfl⟩

/-- C3 amended: rate-limit and connectivity failures are retried up to the cap
with exponential backoff 2^attempt; a generic APIError is ALSO retried (with a
fixed 1-second wait) rather than propagating immediately; exhausting the cap
raises a single terminal error identifying the failure class (a wrapped
rate-limit or connection APIError, or the re-raised generic APIError). -/
theorem c3_retry_behaviour (env : ClaudeEnv) (st : TokenState) (m : String)
    (resp : ApiResponse) :
    ((∀ a, a < 3 → env.call a = .error .rateLimit) →
      ClaudeClient.generate env 3 st = ⟨.error (.rateLimitExceeded 3), st, [1, 2], 3⟩) ∧
    ((∀ a, a < 3 → env.call a = .error .connection) →
      ClaudeClient.generate env 3 st = ⟨.error (.connectionFailed 3), st, [1, 2], 3⟩) ∧
    ((∀ a, a < 3 → env.call a = .error (.generic m)) →
      ClaudeClient.generate env 3 st = ⟨.error (.apiError m), st, [1, 1], 3⟩) ∧
    (env.call 0 = .error (.generic m) → env.call 1 = .ok resp →
      (ClaudeClient.generate env 3 st).calls = 2 ∧
      (ClaudeClient.generate env 3 st).sleeps = [1]) := by
  refine ⟨?_, ?_, ?_, ?_⟩
  · intro h
    simp [ClaudeClient.generate, ClaudeClient.generateAux,
      h 0 (by omega), h 1 (by omega), h 2 (by omega)]
  · intro h
    simp [ClaudeClient.generate, ClaudeClient.generateAux,
      h 0 (by omega), h 1 (by omega), h 2 (by omega)]
  · intro h
    simp [ClaudeClient.generate, ClaudeClient.generateAux,
      h 0 (by omega), h 1 (by omega), h 2 (by omega)]
  · intro h0 h1
    constructor <;> simp [ClaudeClient.generate, ClaudeClient.generateAux, h0, h1]

/-- Claude environment for the C3 witness: every call is rate limited. -/
def c3RateEnv : ClaudeEnv :=
  ⟨fun _ => .error .rateLimit⟩

/-- Witness for the amended C3: exhausting three rate-limited attempts sleeps
2^0 and 2^1 seconds and raises the terminal rate-limit error. -/
theorem c3_retry_behaviour_witness :
    ((∀ a, a < 3 → c3RateEnv.call a = .error .rateLimit) →
      ClaudeClient.generate c3RateEnv 3 ⟨0, 0⟩ =
        ⟨.error (.rateLimitExceeded 3), ⟨0, 0⟩, [1, 2], 3⟩) ∧
    ((∀ a, a < 3 → c3RateEnv.call a = .error .connection) →
      ClaudeClient.generate c3RateEnv 3 ⟨0, 0⟩ =
        ⟨.error (.connectionFailed 3), ⟨0, 0⟩, [1, 2], 3⟩) ∧
    ((∀ a, a < 3 → c3RateEnv.call a = .error (.generic "oops")) →
      ClaudeClient.generate c3RateEnv 3 ⟨0, 0⟩ =
        ⟨.error (.apiError "oops"), ⟨0, 0⟩, [1, 1], 3⟩) ∧
    (c3RateEnv.call 0 = .error (.generic "oops") →
      c3RateEnv.call 1 = .ok ⟨[⟨"hi"⟩], none⟩ →
      (ClaudeClient.generate c3RateEnv 3 ⟨0, 0⟩).calls = 2 ∧
      (ClaudeClient.generate c3RateEnv 3 ⟨0, 0⟩).sleeps = [1]) :=
  c3_retry_behaviour c3RateEnv ⟨0, 0⟩ "oops" ⟨[⟨"hi"⟩], none⟩

/-- C5: for every output path that already exists, create_project fails with
the distinct FileExistsError before performing any write: the returned file
system is exactly the input one, so the existing directory and its contents
are unmodified and nothing is silently overwritten. -/
theorem c5_scaffold_fail_fast (env : ScaffoldEnv) (fs : FsState)
    (output_dir project_name : String)
    (h : pathExists fs output_dir = true) :
    create_project env fs output_dir project_name =
      (fs, some (.fileExists output_dir)) := by
  simp [create_project, h]

/-- Scaffold environment for the C5 witness. -/
def c5Env : ScaffoldEnv :=
  ⟨fun _ => "rendered", fun _ => none⟩

/-- File system for the C5 witness: the output directory already exists. -/
def c5Fs : FsState :=
  ⟨["output/my-app"], [("output/my-app/README.md", "hello")]⟩

/-- Witness for C5: create_project on an occupied path returns the untouched
file system and the FileExistsError. -/
theorem c5_scaffold_fail_fast_witness :
    create_project c5Env c5Fs "output/my-app" "my-app" =
      (c5Fs, some (.fileExists "output/my-app")) :=
  c5_scaffold_fail_fast c5Env c5Fs "output/my-app" "my-app" (by decide)

/-- CLI environment refuting C8: the credential is present, the requirements
parse succeeds, and the output directory already exists. -/
def c8Env : CliEnv :=
  ⟨some "key", none, true, true, true, true, true⟩

/-- Counterexample to C8 as stated: with a pre-existing output directory the
run does abort, but the requirements-parse LLM call has already been made
before the abort, so the abort does not happen before any LLM call. -/
theorem c8_counterexample :
    cli_generate c8Env = ([CliEvent.llmParse], CliOutcome.aborted) ∧
    CliEvent.llmParse ∈ (cli_generate c8Env).1 := by
  refine ⟨rfl, ?_⟩
  show CliEvent.llmParse ∈ [CliEvent.llmParse]
  simp

/-- C8 amended: with a pre-existing output directory (and a present
credential and successful parse) the run aborts with a non-zero exit after
the single requirements-parse LLM call but before any scaffold write,
component generation, npm install or build. -/
theorem c8_abort_on_existing_output (env : CliEnv)
    (hk : (env.api_key.isNone && env.env_api_key.isNone) = false)
    (hp : env.parse_ok = true)
    (ho : env.output_exists = true) :
    cli_generate env = ([CliEvent.llmParse], CliOutcome.aborted) ∧
    CliEvent.scaffoldWrites ∉ (cli_generate env).1 ∧
    CliEvent.generateComponents ∉ (cli_generate env).1 ∧
    CliEvent.npmInstall ∉ (cli_generate env).1 ∧
    CliEvent.npmBuild ∉ (cli_generate env).1 := by
  have he : cli_generate env = ([CliEvent.llmParse], CliOutcome.aborted) := by
    simp [cli_generate, hk, hp, ho]
  refine ⟨he, ?_, ?_, ?_, ?_⟩ <;> simp [he]

/-- Witness for the amended C8, evaluated on the concrete environment. -/
theorem c8_abort_on_existing_output_witness :
    cli_generate c8Env = ([CliEvent.llmParse], CliOutcome.aborted) ∧
    CliEvent.scaffoldWrites ∉ (cli_generate c8Env).1 ∧
    CliEvent.generateComponents ∉ (cli_generate c8Env).1 ∧
    CliEvent.npmInstall ∉ (cli_generate c8Env).1 ∧
    CliEvent.npmBuild ∉ (cli_generate c8Env).1 :=
  c8_abort_on_existing_output c8Env rfl rfl rfl

/-- A successful pattern attempt at the head position makes the search return
its capture. -/
theorem searchFencedObject_cons_hit (c : Char) (rest g : List Char)
    (h : tryFenceMatch (c :: rest) = some g) :
    searchFencedObject (c :: rest) = some g := by
  rw [searchFencedObject, h]

/-- Counterexample to C4 as stated: a reply whose fenced wrapper contains a
JSON array is NOT stripped — generate_structured hands the whole reply
(fences included) to the JSON parser instead of the fenced content. -/
theorem c4_counterexample :
    ClaudeClient.extract_json_str "```json\n[1, 2]\n```" = "```json\n[1, 2]\n```" ∧
    ClaudeClient.extract_json_str "```json\n[1, 2]\n```" ≠ "[1, 2]" := by
  constructor
  · rfl
  · decide

/-- C4 amended: the fenced wrapper is stripped only when it wraps a JSON
object: for a reply consisting of backtick-free prose, then a fenced json
block holding a brace-delimited object, then anything, exactly the fenced
object is selected for parsing; and when the reply contains no fence at all
the whole stripped reply is parsed. -/
theorem c4_fence_extraction (p inner q : List Char) (s : String)
    (hp : ∀ c ∈ p, c ≠ backtick)
    (hi : '}' ∉ inner)
    (hs : ∀ c ∈ s.data, c ≠ backtick) :
    ClaudeClient.extract_json_str
        ⟨p ++ (fenceChars ++ (jsonLitChars ++
          ('\n' :: '{' :: (inner ++ '}' :: '\n' :: (fenceChars ++ q)))))⟩
      = ⟨'{' :: (inner ++ ['}'])⟩ ∧
    ClaudeClient.extract_json_str s = pyStrip s := by
  constructor
  · have hsearch : searchFencedObject
        (p ++ (fenceChars ++ (jsonLitChars ++
          ('\n' :: '{' :: (inner ++ '}' :: '\n' :: (fenceChars ++ q)))))) =
        some ('{' :: (inner ++ ['}'])) := by
      rw [searchFencedObject_skip _ p hp]
      exact searchFencedObject_cons_hit backtick
        (backtick :: backtick :: (jsonLitChars ++
          ('\n' :: '{' :: (inner ++ '}' :: '\n' :: (fenceChars ++ q)))))
        ('{' :: (inner ++ ['}']))
        (tryFenceMatch_at_open inner q hi)
    show (match searchFencedObject
        (p ++ (fenceChars ++ (jsonLitChars ++
          ('\n' :: '{' :: (inner ++ '}' :: '\n' :: (fenceChars ++ q)))))) with
      | some g => (⟨g⟩ : String)
      | none => pyStrip ⟨p ++ (fenceChars ++ (jsonLitChars ++
          ('\n' :: '{' :: (inner ++ '}' :: '\n' :: (fenceChars ++ q)))))⟩)
      = ⟨'{' :: (inner ++ ['}'])⟩
    rw [hsearch]
  · show (match searchFencedObject s.data with
      | some g => (⟨g⟩ : String)
      | none => pyStrip s) = pyStrip s
    rw [searchFencedObject_none s.data hs]

/-- Witness for the amended C4: a fenced object surrounded by prose is
extracted exactly, and a fence-free reply is stripped whole. -/
theorem c4_fence_extraction_witness :
    ClaudeClient.extract_json_str
        ⟨"Here is the JSON: ".data ++ (fenceChars ++ (jsonLitChars ++
          ('\n' :: '{' :: ("\"a\": 1".data ++ '}' :: '\n' :: (fenceChars ++ " done".data)))))⟩
      = ⟨'{' :: ("\"a\": 1".data ++ ['}'])⟩ ∧
    ClaudeClient.extract_json_str "  plain text  " = pyStrip "  plain text  " :=
  c4_fence_extraction "Here is the JSON: ".data "\"a\": 1".data " done".data
    "  plain text  " (by decide) (by decide) (by decide)

/-- Appending strings concatenates their character data. -/
theorem strDataAppend (a b : String) : (a ++ b).data = a.data ++ b.data := by
  cases a
  cases b
  rfl

/-- C6: a missing tsx code block in the LLM reply is a hard failure whose
error message names the offending component, while a missing css code block
does not fail and instead yields the placeholder stylesheet text. -/
theorem c6_missing_block_handling (env : CompGenEnv) (s1 s2 : ComponentSpec) (t : String)
    (h1 : extractFenced "tsx" (env.response s1) = none)
    (h2 : extractFenced "tsx" (env.response s2) = some t)
    (h3 : extractFenced "css" (env.response s2) = none) :
    (∃ msg, generate_component env s1 = .error msg ∧
      ∃ l r, msg.data = l ++ s1.name.data ++ r) ∧
    generate_component env s2 = .ok (pyStrip t, "/* Styles for " ++ s2.name ++ " */") := by
  constructor
  · refine ⟨"Failed to extract TSX code from response for " ++ s1.name, ?_, ?_⟩
    · simp [generate_component, h1]
    · exact ⟨"Failed to extract TSX code from response for ".data, [],
        by simp [strDataAppend]⟩
  · simp [generate_component, h2, h3]

/-- Component-generator environment for the C6 witness: one reply with no code
blocks at all, one with a tsx block but no css block. -/
def c6Env : CompGenEnv :=
  ⟨fun sp => if sp.name = "Alpha" then "no code blocks here"
    else "intro ```tsx\nconst a = 1\n``` outro"⟩

/-- Component specifications for the C6 witness. -/
def c6Alpha : ComponentSpec := ⟨"Alpha", "first", [], [], [], []⟩

/-- Second component specification for the C6 witness. -/
def c6Beta : ComponentSpec := ⟨"Beta", "second", [], [], [], []⟩

/-- Witness for C6: a missing tsx block errors naming the component, a
missing css block degrades to the placeholder stylesheet. -/
theorem c6_missing_block_handling_witness :
    (∃ msg, generate_component c6Env c6Alpha = .error msg ∧
      ∃ l r, msg.data = l ++ c6Alpha.name.data ++ r) ∧
    generate_component c6Env c6Beta =
      .ok (pyStrip "const a = 1", "/* Styles for " ++ c6Beta.name ++ " */") :=
  c6_missing_block_handling c6Env c6Alpha c6Beta "const a = 1"
    (by decide) (by decide) (by decide)

/-- C7: for any ProjectSpec whose components all generate successfully,
generate_project writes exactly N source+stylesheet pairs (one
ComponentName.tsx and one ComponentName.css per component, in specification
order) plus exactly one root wiring file src/App.tsx whose content imports
and renders the designated root component name. -/
theorem c7_project_writes (env : CompGenEnv) (spec : ProjectSpec)
    (h : ∀ c ∈ spec.components, ∃ pr, generate_component env c = .ok pr) :
    ∃ ws, generate_project env spec = .ok ws ∧
      ws.map Prod.fst = componentPathList spec.components ++ ["src/App.tsx"] ∧
      ws.length = 2 * spec.components.length + 1 ∧
      (∃ ws0, ws = ws0 ++ [("src/App.tsx", app_code spec.main_component)]) ∧
      (∃ l r, (app_code spec.main_component).data =
        l ++ ("import ".data ++ spec.main_component.data ++ " from ".data) ++ r) ∧
      (∃ l r, (app_code spec.main_component).data =
        l ++ ("<".data ++ spec.main_component.data ++ " />".data) ++ r) := by
  obtain ⟨ws, hws, hmap, hlen⟩ := componentWrites_ok env spec.components h
  refine ⟨ws ++ [("src/App.tsx", app_code spec.main_component)], ?_, ?_, ?_,
    ⟨ws, rfl⟩, ?_, ?_⟩
  · rw [generate_project, hws]
  · simp [hmap]
  · simp [hlen]
  · refine ⟨("import " ++ squote ++ "./App.css" ++ squote ++ "\n" ++
      "import Header from " ++ squote ++ "./components/Header" ++ squote ++ "\n").data,
      (squote ++ "./components/" ++ spec.main_component ++ squote ++ "\n\n" ++
        "function App() \x7b\n  return (\n    <div className=\"app\">\n      <Header />\n" ++
        "      <main className=\"main-content\">\n        " ++ "<" ++
        spec.main_component ++ " />" ++
        "\n      </main>\n    </div>\n  )\n\x7d\n\nexport default App\n").data, ?_⟩
    simp [app_code, strDataAppend, List.append_assoc]
  · refine ⟨("import " ++ squote ++ "./App.css" ++ squote ++ "\n" ++
      "import Header from " ++ squote ++ "./components/Header" ++ squote ++ "\n" ++
      "import " ++ spec.main_component ++ " from " ++ squote ++ "./components/" ++
      spec.main_component ++ squote ++ "\n\n" ++
      "function App() \x7b\n  return (\n    <div className=\"app\">\n      <Header />\n" ++
      "      <main className=\"main-content\">\n        ").data,
      ("\n      </main>\n    </div>\n  )\n\x7d\n\nexport default App\n").data, ?_⟩
    simp [app_code, strDataAppend, List.append_assoc]

/-- Component-generator environment for the C7 witness: every reply carries a
tsx and a css block. -/
def c7Env : CompGenEnv :=
  ⟨fun _ => "```tsx\nconst x = 1\n```\n```css\n.a \x7b color: red; \x7d\n```"⟩

/-- Project specification for the C7 witness. -/
def c7Spec : ProjectSpec :=
  ⟨"a counter app", [⟨"Counter", "the counter", [], [], [], []⟩], "Counter"⟩

/-- Witness for C7: one component yields one tsx write, one css write and the
App.tsx wiring file referencing Counter. -/
theorem c7_project_writes_witness :
    ∃ ws, generate_project c7Env c7Spec = .ok ws ∧
      ws.map Prod.fst = componentPathList c7Spec.components ++ ["src/App.tsx"] ∧
      ws.length = 2 * c7Spec.components.length + 1 ∧
      (∃ ws0, ws = ws0 ++ [("src/App.tsx", app_code c7Spec.main_component)]) ∧
      (∃ l r, (app_code c7Spec.main_component).data =
        l ++ ("import ".data ++ c7Spec.main_component.data ++ " from ".data) ++ r) ∧
      (∃ l r, (app_code c7Spec.main_component).data =
        l ++ ("<".data ++ c7Spec.main_component.data ++ " />".data) ++ r) :=
  c7_project_writes c7Env c7Spec (by
    intro c hc
    simp [c7Spec] at hc
    subst hc
    exact ⟨(pyStrip "const x = 1", pyStrip ".a \x7b color: red; \x7d"), by decide⟩)

/-- C2: for build output in which the TS6133 unused-variable diagnostic and a
matching src/components file reference each occur once, with the named file
present and containing a whole-word occurrence of the variable, the
deterministic fixer renames exactly one occurrence (the leftmost, prefixing it
with an underscore) in that file and reports success, and _attempt_build_fix
then does not invoke the LLM fixer; moreover on any failed attempt the
deterministic fix is consulted first and exactly one strategy runs: the LLM
fixer is invoked precisely when the deterministic fix does not apply. -/
theorem c2_deterministic_fix (fs : FsT) (err : String) (x f content : List Char)
    (llm : LlmFixReply) (fs2 : FsT) (err2 : String) (llm2 : LlmFixReply)
    (hv : ts6133Matches err = [x])
    (hf : fileRefMatches err = [f])
    (hc : lookupFs fs (compPath f) = some content)
    (ho : hasWordOccur x content = true) :
    (∃ pre post, content = pre ++ x ++ post ∧
      attempt_simple_typescript_fix fs err =
        (true, updateFs fs (compPath f) (pre ++ ('_' :: x) ++ post)) ∧
      attempt_build_fix llm fs err =
        ⟨true, updateFs fs (compPath f) (pre ++ ('_' :: x) ++ post), false⟩) ∧
    (attempt_build_fix llm2 fs2 err2).llmInvoked =
      !(attempt_simple_typescript_fix fs2 err2).1 := by
  obtain ⟨pre, post, hcontent, hsub⟩ := subWordFirstGo_shape x content none ho
  have hsub' : subWordFirst x content = some (pre ++ ('_' :: x) ++ post) := hsub
  have hne : (pre ++ ('_' :: x) ++ post) ≠ content := by
    intro he
    have hl := congrArg List.length he
    rw [hcontent] at hl
    simp [List.length_append] at hl
  have hsimple : attempt_simple_typescript_fix fs err =
      (true, updateFs fs (compPath f) (pre ++ ('_' :: x) ++ post)) := by
    unfold attempt_simple_typescript_fix
    rw [hv, hf]
    rw [if_pos ⟨List.cons_ne_nil x [], List.cons_ne_nil f []⟩]
    show simpleFixPairs fs [(x, f)] = _
    rw [simpleFixPairs]
    simp only [hc, hsub']
    rw [if_pos hne]
  refine ⟨⟨pre, post, hcontent, hsimple, ?_⟩, ?_⟩
  · unfold attempt_build_fix
    rw [hsimple]
    rfl
  · cases hllm : llm2 with
    | fixes l =>
      by_cases hdet : (attempt_simple_typescript_fix fs2 err2).1 <;>
        by_cases hl : l = [] <;>
          simp [attempt_build_fix, hdet, hl]
    | notAList =>
      by_cases hdet : (attempt_simple_typescript_fix fs2 err2).1 <;>
        simp [attempt_build_fix, hdet]
    | exn =>
      by_cases hdet : (attempt_simple_typescript_fix fs2 err2).1 <;>
        simp [attempt_build_fix, hdet]

/-- Build output for the C2 witness: one TS6133 diagnostic with its file/line
reference, as tsc prints it. -/
def c2Err : String :=
  "src/components/Header.tsx:3:9 - error TS6133: " ++ squote ++ "count" ++ squote ++
  " is declared but its value is never read."

/-- Project files for the C2 witness. -/
def c2Fs : FsT :=
  [("src/components/Header.tsx".data, "const count = useState(0)".data)]

/-- Witness for C2: the deterministic fixer renames count to _count in
Header.tsx and the LLM fixer stays uninvoked. -/
theorem c2_deterministic_fix_witness :
    (∃ pre post, "const count = useState(0)".data = pre ++ "count".data ++ post ∧
      attempt_simple_typescript_fix c2Fs c2Err =
        (true, updateFs c2Fs (compPath "Header.tsx".data)
          (pre ++ ('_' :: "count".data) ++ post)) ∧
      attempt_build_fix .exn c2Fs c2Err =
        ⟨true, updateFs c2Fs (compPath "Header.tsx".data)
          (pre ++ ('_' :: "count".data) ++ post), false⟩) ∧
    (attempt_build_fix .exn [] "x").llmInvoked =
      !(attempt_simple_typescript_fix [] "x").1 :=
  c2_deterministic_fix c2Fs c2Err "count".data "Header.tsx".data
    "const count = useState(0)".data .exn [] "x" .exn
    (by decide) (by decide) (by decide) (by decide)
